import Mathlib

/-!
Shallow embedding of `layout_data/models/unet.py` (U-Net V1 and U-Net V2).

The file is a forward-pass shape semantics: a tensor is represented by its
shape (batch, channels, height, width); every layer of the two networks is a
partial function on shapes that fails (returns `none`) exactly where the
tensor framework would raise at forward time.  The semantics models the
evaluation-mode forward pass; the size constraints embedded in each layer are:

* 3x3 convolution, padding 1: needs the padded input to cover the kernel, and
  with reflect padding additionally needs the padding to be smaller than each
  spatial dimension (a 1x1 input cannot be reflect-padded by 1);
* 2x2 stride-2 pooling (max or average): needs spatial size at least 2 and
  halves it with floor division;
* 2x2 stride-2 transposed convolution: doubles the spatial size;
* channel-wise concatenation: needs batch and spatial sizes to agree;
* bilinear resampling to a target size: replaces the spatial size;
* normalization layers: need the configured channel count.

Layer kinds are kept as data (`Layer`) so that structural facts about the
constructed networks (which pooling operator sits where, which layers are
group normalizations, absence of dropout) are statable alongside the shape
behaviour.
-/

set_option maxHeartbeats 1600000

namespace UNetSpec

/-- Shape (batch, channels, height, width) of a 4-d tensor. -/
structure Shape where
  n : Nat
  c : Nat
  h : Nat
  w : Nat
deriving DecidableEq

/-- Layer kinds occurring in `unet.py`: convolutions (kernel `k`, padding `p`,
zero or reflect padding mode), batch/group normalization, ReLU, GELU, dropout,
2x2 stride-2 max/average pooling, and 2x2 stride-2 transposed convolution. -/
inductive Layer where
  | conv2d (inC outC k p : Nat) (reflect : Bool)
  | batchNorm (c : Nat)
  | groupNorm (g c : Nat)
  | relu
  | gelu
  | dropout
  | maxPool2
  | avgPool2
  | convT2 (inC outC : Nat)
deriving DecidableEq

/-- Evaluation-mode shape semantics of one layer: `none` exactly where the
tensor framework raises during forward. -/
def Layer.shapeSem : Layer → Shape → Option Shape
  | .conv2d inC outC k p r, s =>
      if s.c = inC ∧ k ≤ s.h + 2 * p ∧ k ≤ s.w + 2 * p ∧
          (r = true → p < s.h ∧ p < s.w) then
        some ⟨s.n, outC, s.h + 2 * p + 1 - k, s.w + 2 * p + 1 - k⟩
      else none
  | .batchNorm c, s => if s.c = c then some s else none
  | .groupNorm _ c, s => if s.c = c then some s else none
  | .relu, s => some s
  | .gelu, s => some s
  | .dropout, s => some s
  | .maxPool2, s =>
      if 2 ≤ s.h ∧ 2 ≤ s.w then some ⟨s.n, s.c, s.h / 2, s.w / 2⟩ else none
  | .avgPool2, s =>
      if 2 ≤ s.h ∧ 2 ≤ s.w then some ⟨s.n, s.c, s.h / 2, s.w / 2⟩ else none
  | .convT2 inC outC, s =>
      if s.c = inC ∧ 1 ≤ s.h ∧ 1 ≤ s.w then
        some ⟨s.n, outC, 2 * s.h, 2 * s.w⟩
      else none

/-- Run a sequence of layers (an `nn.Sequential`). -/
def runLayers : List Layer → Shape → Option Shape
  | [], s => some s
  | l :: ls, s => (l.shapeSem s).bind (runLayers ls)

/-- Source: `nn.BatchNorm2d(c) if bn else nn.GroupNorm(32, c)`. -/
def norm2d (bn : Bool) (c : Nat) : Layer :=
  if bn then .batchNorm c else .groupNorm 32 c

/-- Shape semantics of `F.interpolate(x, (th, tw), mode='bilinear')` with the
given corner alignment (alignment does not affect shapes; it is recorded to
keep the call sites faithful to the source). -/
def interpolate (alignCorners : Bool) (th tw : Nat) (s : Shape) : Option Shape :=
  if 1 ≤ s.h ∧ 1 ≤ s.w ∧ 1 ≤ th ∧ 1 ≤ tw then some ⟨s.n, s.c, th, tw⟩ else none

/-- Shape semantics of `torch.cat([a, b], 1)`. -/
def cat2 (a b : Shape) : Option Shape :=
  if a.n = b.n ∧ a.h = b.h ∧ a.w = b.w then
    some ⟨a.n, a.c + b.c, a.h, a.w⟩
  else none

/-- An encoder block: an optional leading pool plus the `encode` sequence. -/
structure EncoderBlock where
  encode : List Layer
  pool : Option Layer
deriving DecidableEq

/-- Source `_EncoderBlock.__init__` (V1): zero-padded 3x3 convs, ReLU,
optional dropout, and `nn.MaxPool2d(2, 2)` when `polling` is set. -/
def encoderBlockV1 (inC outC : Nat) (dropout polling bn : Bool) : EncoderBlock where
  encode :=
    [.conv2d inC outC 3 1 false, norm2d bn outC, .relu,
     .conv2d outC outC 3 1 false, norm2d bn outC, .relu] ++
    (if dropout then [.dropout] else [])
  pool := if polling then some .maxPool2 else none

/-- Source `_EncoderBlockV2.__init__`: reflect-padded 3x3 convs, GELU,
optional dropout, and—exactly as in the source—`nn.MaxPool2d(2, 2)` when
`polling` is set. -/
def encoderBlockV2 (inC outC : Nat) (dropout polling bn : Bool) : EncoderBlock where
  encode :=
    [.conv2d inC outC 3 1 true, norm2d bn outC, .gelu,
     .conv2d outC outC 3 1 true, norm2d bn outC, .gelu] ++
    (if dropout then [.dropout] else [])
  pool := if polling then some .maxPool2 else none

/-- Source `_EncoderBlock.forward` / `_EncoderBlockV2.forward`. -/
def EncoderBlock.forward (b : EncoderBlock) (x : Shape) : Option Shape :=
  (match b.pool with
   | some p => p.shapeSem x
   | none => some x).bind (runLayers b.encode)

/-- Source `_DecoderBlock.__init__` (V1): two zero-padded 3x3 convs with ReLU
followed by a 2x2 stride-2 transposed convolution. -/
def decoderBlockV1 (inC midC outC : Nat) (bn : Bool) : List Layer :=
  [.conv2d inC midC 3 1 false, norm2d bn midC, .relu,
   .conv2d midC midC 3 1 false, norm2d bn midC, .relu,
   .convT2 midC outC]

/-- Source `_DecoderBlockV2.__init__`: two reflect-padded 3x3 convs with GELU
and no upsampling stage. -/
def decoderBlockV2 (inC midC outC : Nat) (bn : Bool) : List Layer :=
  [.conv2d inC midC 3 1 true, norm2d bn midC, .gelu,
   .conv2d midC outC 3 1 true, norm2d bn outC, .gelu]

/-- Module tree of `UNet` (V1). -/
structure UNetStruct where
  enc1 : EncoderBlock
  enc2 : EncoderBlock
  enc3 : EncoderBlock
  enc4 : EncoderBlock
  polling : Layer
  center : List Layer
  dec4 : List Layer
  dec3 : List Layer
  dec2 : List Layer
  dec1 : List Layer
  final : Layer

/-- Source `UNet.__init__`. -/
def UNet_mk (numClasses inChannels : Nat) (bn : Bool) : UNetStruct where
  enc1 := encoderBlockV1 inChannels 64 false false bn
  enc2 := encoderBlockV1 64 128 false true bn
  enc3 := encoderBlockV1 128 256 false true bn
  enc4 := encoderBlockV1 256 512 false true bn
  polling := .maxPool2
  center := decoderBlockV1 512 1024 512 bn
  dec4 := decoderBlockV1 1024 512 256 bn
  dec3 := decoderBlockV1 512 256 128 bn
  dec2 := decoderBlockV1 256 128 64 bn
  dec1 :=
    [.conv2d 128 64 3 1 false, norm2d bn 64, .relu,
     .conv2d 64 64 3 1 false, norm2d bn 64, .relu]
  final := .conv2d 64 numClasses 1 0 false

/-- Source `UNet.forward`: encoder chain, max-pool, bottleneck, a bilinear
resample (aligned corners) of the bottleneck output to `enc4`'s size, then
three direct (un-resampled) concatenations for dec3, dec2 and dec1. -/
def UNetStruct.forward (m : UNetStruct) (x : Shape) : Option Shape :=
  match m.enc1.forward x with
  | none => none
  | some e1 =>
  match m.enc2.forward e1 with
  | none => none
  | some e2 =>
  match m.enc3.forward e2 with
  | none => none
  | some e3 =>
  match m.enc4.forward e3 with
  | none => none
  | some e4 =>
  match m.polling.shapeSem e4 with
  | none => none
  | some p =>
  match runLayers m.center p with
  | none => none
  | some c =>
  match interpolate true e4.h e4.w c with
  | none => none
  | some ci =>
  match cat2 ci e4 with
  | none => none
  | some c4 =>
  match runLayers m.dec4 c4 with
  | none => none
  | some d4 =>
  match cat2 d4 e3 with
  | none => none
  | some c3 =>
  match runLayers m.dec3 c3 with
  | none => none
  | some d3 =>
  match cat2 d3 e2 with
  | none => none
  | some c2 =>
  match runLayers m.dec2 c2 with
  | none => none
  | some d2 =>
  match cat2 d2 e1 with
  | none => none
  | some c1 =>
  match runLayers m.dec1 c1 with
  | none => none
  | some d1 => m.final.shapeSem d1

/-- Source `UNet(num_classes, in_channels, bn)` applied to an input shape. -/
def unetForward (numClasses inChannels : Nat) (bn : Bool) (x : Shape) :
    Option Shape :=
  (UNet_mk numClasses inChannels bn).forward x

/-- Result of `UNetV2.forward`: a single tensor, or the 4-tuple
`(conv_8(dec4), conv_4(dec3), conv_2(dec2), final)`. -/
inductive V2Out where
  | single (t : Shape)
  | multi (o8 o4 o2 fin : Shape)
deriving DecidableEq

/-- Tensors contained in a `UNetV2.forward` result. -/
def V2Out.tensors : V2Out → List Shape
  | .single t => [t]
  | .multi o8 o4 o2 fin => [o8, o4, o2, fin]

/-- Module tree of `UNetV2`. -/
structure UNetV2Struct where
  multi_scale : Bool
  enc1 : EncoderBlock
  enc2 : EncoderBlock
  enc3 : EncoderBlock
  enc4 : EncoderBlock
  polling : Layer
  center : List Layer
  dec4 : List Layer
  dec3 : List Layer
  dec2 : List Layer
  dec1 : List Layer
  conv_8 : Option Layer
  conv_4 : Option Layer
  conv_2 : Option Layer
  final : Layer

/-- Source `UNetV2.__init__`: channel widths `32*factors .. 512*factors`,
`nn.AvgPool2d(2, 2)` as the single inter-block pool `self.polling`, V2 encoder
and decoder blocks, and the three auxiliary heads when `multi_scale`. -/
def UNetV2_mk (numClasses inChannels : Nat) (bn : Bool) (factors : Nat)
    (multi_scale : Bool) : UNetV2Struct where
  multi_scale := multi_scale
  enc1 := encoderBlockV2 inChannels (32 * factors) false false bn
  enc2 := encoderBlockV2 (32 * factors) (64 * factors) false true bn
  enc3 := encoderBlockV2 (64 * factors) (128 * factors) false true bn
  enc4 := encoderBlockV2 (128 * factors) (256 * factors) false true bn
  polling := .avgPool2
  center := decoderBlockV2 (256 * factors) (512 * factors) (256 * factors) bn
  dec4 := decoderBlockV2 (512 * factors) (256 * factors) (128 * factors) bn
  dec3 := decoderBlockV2 (256 * factors) (128 * factors) (64 * factors) bn
  dec2 := decoderBlockV2 (128 * factors) (64 * factors) (32 * factors) bn
  dec1 :=
    [.conv2d (64 * factors) (32 * factors) 3 1 true, norm2d bn (32 * factors), .gelu,
     .conv2d (32 * factors) (32 * factors) 1 0 false, norm2d bn (32 * factors), .gelu]
  conv_8 := if multi_scale then some (.conv2d (128 * factors) numClasses 1 0 false) else none
  conv_4 := if multi_scale then some (.conv2d (64 * factors) numClasses 1 0 false) else none
  conv_2 := if multi_scale then some (.conv2d (32 * factors) numClasses 1 0 false) else none
  final := .conv2d (32 * factors) numClasses 1 0 false

/-- Source `UNetV2.forward`: every ladder step resamples the upstream tensor
(bilinear, unaligned corners) to the skip connection's size before
concatenating; with `multi_scale` the result is the 4-tuple of heads, else the
single `final` tensor. -/
def UNetV2Struct.forward (m : UNetV2Struct) (x : Shape) : Option V2Out :=
  match m.enc1.forward x with
  | none => none
  | some e1 =>
  match m.enc2.forward e1 with
  | none => none
  | some e2 =>
  match m.enc3.forward e2 with
  | none => none
  | some e3 =>
  match m.enc4.forward e3 with
  | none => none
  | some e4 =>
  match m.polling.shapeSem e4 with
  | none => none
  | some p =>
  match runLayers m.center p with
  | none => none
  | some c =>
  match interpolate false e4.h e4.w c with
  | none => none
  | some ci =>
  match cat2 ci e4 with
  | none => none
  | some c4 =>
  match runLayers m.dec4 c4 with
  | none => none
  | some d4 =>
  match interpolate false e3.h e3.w d4 with
  | none => none
  | some di3 =>
  match cat2 di3 e3 with
  | none => none
  | some c3 =>
  match runLayers m.dec3 c3 with
  | none => none
  | some d3 =>
  match interpolate false e2.h e2.w d3 with
  | none => none
  | some di2 =>
  match cat2 di2 e2 with
  | none => none
  | some c2 =>
  match runLayers m.dec2 c2 with
  | none => none
  | some d2 =>
  match interpolate false e1.h e1.w d2 with
  | none => none
  | some di1 =>
  match cat2 di1 e1 with
  | none => none
  | some c1 =>
  match runLayers m.dec1 c1 with
  | none => none
  | some d1 =>
  match m.final.shapeSem d1 with
  | none => none
  | some fin =>
  if m.multi_scale then
    match m.conv_8, m.conv_4, m.conv_2 with
    | some h8, some h4, some h2 =>
      (match h8.shapeSem d4 with
       | none => none
       | some o8 =>
       match h4.shapeSem d3 with
       | none => none
       | some o4 =>
       match h2.shapeSem d2 with
       | none => none
       | some o2 => some (V2Out.multi o8 o4 o2 fin))
    | _, _, _ => none
  else some (V2Out.single fin)

/-- Source `UNetV2(num_classes, in_channels, bn, factors, multi_scale)`
applied to an input shape. -/
def unetV2Forward (numClasses inChannels : Nat) (bn : Bool) (factors : Nat)
    (multi_scale : Bool) (x : Shape) : Option V2Out :=
  (UNetV2_mk numClasses inChannels bn factors multi_scale).forward x

/-- Layers of an encoder block, leading pool first. -/
def EncoderBlock.allLayers (b : EncoderBlock) : List Layer :=
  (match b.pool with
   | some p => [p]
   | none => []) ++ b.encode

/-- All layers of a `UNet` (V1) module tree. -/
def UNetStruct.allLayers (m : UNetStruct) : List Layer :=
  m.enc1.allLayers ++ m.enc2.allLayers ++ m.enc3.allLayers ++ m.enc4.allLayers ++
  [m.polling] ++ m.center ++ m.dec4 ++ m.dec3 ++ m.dec2 ++ m.dec1 ++ [m.final]

/-- All layers of a `UNetV2` module tree. -/
def UNetV2Struct.allLayers (m : UNetV2Struct) : List Layer :=
  m.enc1.allLayers ++ m.enc2.allLayers ++ m.enc3.allLayers ++ m.enc4.allLayers ++
  [m.polling] ++ m.center ++ m.dec4 ++ m.dec3 ++ m.dec2 ++ m.dec1 ++
  m.conv_8.toList ++ m.conv_4.toList ++ m.conv_2.toList ++ [m.final]

/-- One fuse-and-decode ladder step as the spec describes it: optionally
resample the upstream tensor to the skip connection's spatial size (bilinear,
with the given corner alignment), concatenate channel-wise with the skip
connection, then run the decoder layers. -/
def ladderStep (resample alignCorners : Bool) (dec : List Layer)
    (prev skip : Shape) : Option Shape :=
  (if resample then interpolate alignCorners skip.h skip.w prev else some prev).bind
    fun p => (cat2 p skip).bind fun c => runLayers dec c

/-- V1 forward written with `ladderStep`: only the first (bottleneck to dec4)
step resamples; the dec3, dec2 and dec1 steps concatenate directly. -/
def unetForwardLadder (numClasses inChannels : Nat) (bn : Bool) (x : Shape) :
    Option Shape :=
  let m := UNet_mk numClasses inChannels bn
  match m.enc1.forward x with
  | none => none
  | some e1 =>
  match m.enc2.forward e1 with
  | none => none
  | some e2 =>
  match m.enc3.forward e2 with
  | none => none
  | some e3 =>
  match m.enc4.forward e3 with
  | none => none
  | some e4 =>
  match m.polling.shapeSem e4 with
  | none => none
  | some p =>
  match runLayers m.center p with
  | none => none
  | some c =>
  match ladderStep true true m.dec4 c e4 with
  | none => none
  | some d4 =>
  match ladderStep false true m.dec3 d4 e3 with
  | none => none
  | some d3 =>
  match ladderStep false true m.dec2 d3 e2 with
  | none => none
  | some d2 =>
  match ladderStep false true m.dec1 d2 e1 with
  | none => none
  | some d1 => m.final.shapeSem d1

/-- Modelled from the spec claim on V1: a forward pass in which every one of
the four ladder steps first resamples (bilinear, aligned corners) to the
corresponding encoder output's size, then concatenates, then decodes. -/
def unetForwardResampleEach (numClasses inChannels : Nat) (bn : Bool)
    (x : Shape) : Option Shape :=
  let m := UNet_mk numClasses inChannels bn
  match m.enc1.forward x with
  | none => none
  | some e1 =>
  match m.enc2.forward e1 with
  | none => none
  | some e2 =>
  match m.enc3.forward e2 with
  | none => none
  | some e3 =>
  match m.enc4.forward e3 with
  | none => none
  | some e4 =>
  match m.polling.shapeSem e4 with
  | none => none
  | some p =>
  match runLayers m.center p with
  | none => none
  | some c =>
  match ladderStep true true m.dec4 c e4 with
  | none => none
  | some d4 =>
  match ladderStep true true m.dec3 d4 e3 with
  | none => none
  | some d3 =>
  match ladderStep true true m.dec2 d3 e2 with
  | none => none
  | some d2 =>
  match ladderStep true true m.dec1 d2 e1 with
  | none => none
  | some d1 => m.final.shapeSem d1

/-- The V1 forward computation up to the first un-resampled concatenation:
returns the pair `(dec4, enc3)`, the two arguments of
`torch.cat([dec4, enc3], 1)`. -/
def unetV1Dec4Enc3 (numClasses inChannels : Nat) (bn : Bool) (x : Shape) :
    Option (Shape × Shape) :=
  let m := UNet_mk numClasses inChannels bn
  match m.enc1.forward x with
  | none => none
  | some e1 =>
  match m.enc2.forward e1 with
  | none => none
  | some e2 =>
  match m.enc3.forward e2 with
  | none => none
  | some e3 =>
  match m.enc4.forward e3 with
  | none => none
  | some e4 =>
  match m.polling.shapeSem e4 with
  | none => none
  | some p =>
  match runLayers m.center p with
  | none => none
  | some c =>
  match interpolate true e4.h e4.w c with
  | none => none
  | some ci =>
  match cat2 ci e4 with
  | none => none
  | some c4 =>
  match runLayers m.dec4 c4 with
  | none => none
  | some d4 => some (d4, e3)

/-- Train or evaluation mode of the module tree. -/
inductive Mode where
  | train
  | eval
deriving DecidableEq

/-- Modelled from the framework semantics: the only layer kind in this file
whose forward pass writes to its own state is batch normalization, which in
training mode updates its (non-learnable) running-statistics buffers.  No
layer ever writes its learnable parameters during forward. -/
def Layer.updatesBuffers : Layer → Mode → Bool
  | .batchNorm _, .train => true
  | _, _ => false

/-- State transition of one layer's `(parameters, buffers)` pair during a
forward pass: buffers of a training-mode batch norm may be rewritten by an
arbitrary update `upd`; parameters are untouched. -/
def layerStateStep {P B : Type} (upd : B → B) (mode : Mode) (l : Layer)
    (st : P × B) : P × B :=
  (st.1, if l.updatesBuffers mode then upd st.2 else st.2)

/-- State transition of a whole network's per-layer states during a forward
pass. -/
def netStateStep {P B : Type} (upd : B → B) (mode : Mode) (ls : List Layer)
    (sts : List (P × B)) : List (P × B) :=
  List.zipWith (layerStateStep upd mode) ls sts

end UNetSpec


/-!
Closed-form shape lemmas for the building blocks, used by the network-level
theorems below.
-/

namespace UNetSpec

theorem ite_none_bind {α β : Type} (c : Prop) [Decidable c] (x : α)
    (f : α → Option β) :
    (if c then some x else none).bind f = if c then f x else none := by
  split <;> rfl

theorem encoderBlockV2_forward_nopool (ic oc : Nat) (bn : Bool) (s : Shape) :
    (encoderBlockV2 ic oc false false bn).forward s =
      if s.c = ic ∧ 2 ≤ s.h ∧ 2 ≤ s.w then some ⟨s.n, oc, s.h, s.w⟩ else none := by
  cases bn <;>
      simp only [encoderBlockV2, EncoderBlock.forward, runLayers, norm2d,
        Layer.shapeSem, ite_none_bind, Bool.false_eq_true, Bool.true_eq_false,
        if_false, if_true, ite_false, ite_true, List.append_nil,
        Option.some_bind, Option.none_bind, true_implies, false_implies,
        true_and, and_true] <;>
    split_ifs <;>
      (try simp only [true_and, and_true, Option.some.injEq, Shape.mk.injEq] at *) <;>
    first
      | rfl
      | omega

theorem encoderBlockV2_forward_pool (ic oc : Nat) (bn : Bool) (s : Shape) :
    (encoderBlockV2 ic oc false true bn).forward s =
      if s.c = ic ∧ 4 ≤ s.h ∧ 4 ≤ s.w then some ⟨s.n, oc, s.h / 2, s.w / 2⟩
      else none := by
  cases bn <;>
      simp only [encoderBlockV2, EncoderBlock.forward, runLayers, norm2d,
        Layer.shapeSem, ite_none_bind, Bool.false_eq_true, Bool.true_eq_false,
        if_false, if_true, ite_false, ite_true, List.append_nil,
        Option.some_bind, Option.none_bind, true_implies, false_implies,
        true_and, and_true] <;>
    split_ifs <;>
      (try simp only [true_and, and_true, Option.some.injEq, Shape.mk.injEq] at *) <;>
    first
      | rfl
      | omega

theorem decoderBlockV1_run (ic mid oc : Nat) (bn : Bool) (s : Shape) :
    runLayers (decoderBlockV1 ic mid oc bn) s =
      if s.c = ic ∧ 1 ≤ s.h ∧ 1 ≤ s.w then some ⟨s.n, oc, 2 * s.h, 2 * s.w⟩
      else none := by
  cases bn <;>
      simp only [decoderBlockV1, runLayers, norm2d, Layer.shapeSem,
        ite_none_bind, Bool.false_eq_true, Bool.true_eq_false, if_false,
        if_true, ite_false, ite_true, List.append_nil, Option.some_bind,
        Option.none_bind, true_implies, false_implies, true_and, and_true] <;>
    split_ifs <;>
      (try simp only [true_and, and_true, Option.some.injEq, Shape.mk.injEq] at *) <;>
    first
      | rfl
      | omega

theorem decoderBlockV2_run (ic mid oc : Nat) (bn : Bool) (s : Shape) :
    runLayers (decoderBlockV2 ic mid oc bn) s =
      if s.c = ic ∧ 2 ≤ s.h ∧ 2 ≤ s.w then some ⟨s.n, oc, s.h, s.w⟩
      else none := by
  cases bn <;>
      simp only [decoderBlockV2, runLayers, norm2d, Layer.shapeSem,
        ite_none_bind, Bool.false_eq_true, Bool.true_eq_false, if_false,
        if_true, ite_false, ite_true, List.append_nil, Option.some_bind,
        Option.none_bind, true_implies, false_implies, true_and, and_true] <;>
    split_ifs <;>
      (try simp only [true_and, and_true, Option.some.injEq, Shape.mk.injEq] at *) <;>
    first
      | rfl
      | omega

theorem encoderBlockV1_forward_nopool (ic oc : Nat) (bn : Bool) (s : Shape) :
    (encoderBlockV1 ic oc false false bn).forward s =
      if s.c = ic ∧ 1 ≤ s.h ∧ 1 ≤ s.w then some ⟨s.n, oc, s.h, s.w⟩
      else none := by
  cases bn <;>
      simp only [encoderBlockV1, EncoderBlock.forward, runLayers, norm2d,
        Layer.shapeSem, ite_none_bind, Bool.false_eq_true, Bool.true_eq_false,
        if_false, if_true, ite_false, ite_true, List.append_nil,
        Option.some_bind, Option.none_bind, true_implies, false_implies,
        true_and, and_true] <;>
    split_ifs <;>
      (try simp only [true_and, and_true, Option.some.injEq, Shape.mk.injEq] at *) <;>
    first
      | rfl
      | omega

theorem encoderBlockV1_forward_pool (ic oc : Nat) (bn : Bool) (s : Shape) :
    (encoderBlockV1 ic oc false true bn).forward s =
      if s.c = ic ∧ 2 ≤ s.h ∧ 2 ≤ s.w then some ⟨s.n, oc, s.h / 2, s.w / 2⟩
      else none := by
  cases bn <;>
      simp only [encoderBlockV1, EncoderBlock.forward, runLayers, norm2d,
        Layer.shapeSem, ite_none_bind, Bool.false_eq_true, Bool.true_eq_false,
        if_false, if_true, ite_false, ite_true, List.append_nil,
        Option.some_bind, Option.none_bind, true_implies, false_implies,
        true_and, and_true] <;>
    split_ifs <;>
      (try simp only [true_and, and_true, Option.some.injEq, Shape.mk.injEq] at *) <;>
    first
      | rfl
      | omega

theorem dec1V1_run (bn : Bool) (s : Shape) :
    runLayers
      [Layer.conv2d 128 64 3 1 false, norm2d bn 64, Layer.relu,
       Layer.conv2d 64 64 3 1 false, norm2d bn 64, Layer.relu] s =
      if s.c = 128 ∧ 1 ≤ s.h ∧ 1 ≤ s.w then some ⟨s.n, 64, s.h, s.w⟩
      else none := by
  cases bn <;>
      simp only [runLayers, norm2d, Layer.shapeSem, ite_none_bind,
        Bool.false_eq_true, Bool.true_eq_false, if_false, if_true, ite_false,
        ite_true, Option.some_bind, Option.none_bind, true_implies,
        false_implies, true_and, and_true] <;>
    split_ifs <;>
      (try simp only [true_and, and_true, Option.some.injEq, Shape.mk.injEq] at *) <;>
    first
      | rfl
      | omega

theorem dec1V2_run (f : Nat) (bn : Bool) (s : Shape) :
    runLayers
      [Layer.conv2d (64 * f) (32 * f) 3 1 true, norm2d bn (32 * f), Layer.gelu,
       Layer.conv2d (32 * f) (32 * f) 1 0 false, norm2d bn (32 * f), Layer.gelu] s =
      if s.c = 64 * f ∧ 2 ≤ s.h ∧ 2 ≤ s.w then some ⟨s.n, 32 * f, s.h, s.w⟩
      else none := by
  cases bn <;>
      simp only [runLayers, norm2d, Layer.shapeSem, ite_none_bind,
        Bool.false_eq_true, Bool.true_eq_false, if_false, if_true, ite_false,
        ite_true, Option.some_bind, Option.none_bind, true_implies,
        false_implies, true_and, and_true] <;>
    split_ifs <;>
      (try simp only [true_and, and_true, Option.some.injEq, Shape.mk.injEq] at *) <;>
    first
      | rfl
      | omega

theorem conv1x1_sem (ic oc : Nat) (s : Shape) :
    Layer.shapeSem (.conv2d ic oc 1 0 false) s =
      if s.c = ic ∧ 1 ≤ s.h ∧ 1 ≤ s.w then some ⟨s.n, oc, s.h, s.w⟩
      else none := by
  simp only [Layer.shapeSem, Bool.false_eq_true, false_implies, and_true]
  split_ifs <;>
      (try simp only [true_and, and_true, Option.some.injEq, Shape.mk.injEq] at *) <;>
    first
      | rfl
      | omega


/-!
Master closed forms of the two forward passes.  V1 succeeds exactly on inputs
whose spatial sizes survive the three un-resampled concatenations (each
transposed-convolution doubling must land exactly on the next skip
connection's floored size) and are at least 16; V2 succeeds exactly on inputs
of spatial size at least 32 (below that, the bottleneck reaches a 1x1 map that
its reflect-padded convolution rejects) and its ladder resampling makes every
concatenation fit automatically.
-/

set_option maxHeartbeats 6400000 in
theorem unetForward_eq (nc ic : Nat) (bn : Bool) (s : Shape) :
    unetForward nc ic bn s =
      if s.c = ic ∧ 16 ≤ s.h ∧ 16 ≤ s.w ∧
          2 * (s.h / 8) = s.h / 4 ∧ 2 * (s.w / 8) = s.w / 4 ∧
          2 * (s.h / 4) = s.h / 2 ∧ 2 * (s.w / 4) = s.w / 2 ∧
          2 * (s.h / 2) = s.h ∧ 2 * (s.w / 2) = s.w then
        some ⟨s.n, nc, s.h, s.w⟩
      else none := by
  unfold unetForward UNetStruct.forward
  simp only [UNet_mk, encoderBlockV1_forward_nopool, encoderBlockV1_forward_pool,
    decoderBlockV1_run, dec1V1_run, conv1x1_sem, Layer.shapeSem, interpolate, cat2]
  repeat' (split_ifs <;> try dsimp only [])
  all_goals try rfl
  all_goals try omega
  all_goals
    (simp only [false_implies, and_true, true_and, Option.some.injEq,
      Shape.mk.injEq] at *) <;>
    omega

set_option maxHeartbeats 6400000 in
theorem unetV2Forward_eq (nc ic : Nat) (bn : Bool) (f : Nat) (ms : Bool)
    (s : Shape) :
    unetV2Forward nc ic bn f ms s =
      if s.c = ic ∧ 32 ≤ s.h ∧ 32 ≤ s.w then
        some
          (if ms then
            V2Out.multi ⟨s.n, nc, s.h / 8, s.w / 8⟩ ⟨s.n, nc, s.h / 4, s.w / 4⟩
              ⟨s.n, nc, s.h / 2, s.w / 2⟩ ⟨s.n, nc, s.h, s.w⟩
          else V2Out.single ⟨s.n, nc, s.h, s.w⟩)
      else none := by
  cases ms <;>
    (unfold unetV2Forward UNetV2Struct.forward
     simp only [UNetV2_mk, encoderBlockV2_forward_nopool,
       encoderBlockV2_forward_pool, decoderBlockV2_run, dec1V2_run,
       conv1x1_sem, Layer.shapeSem, interpolate, cat2, Bool.false_eq_true,
       Bool.true_eq_false, if_true, if_false, ite_true, ite_false]
     repeat' (split_ifs <;> try dsimp only [])
     all_goals try rfl
     all_goals try omega
     all_goals
       (simp only [false_implies, and_true, true_and, Option.some.injEq,
         Shape.mk.injEq, V2Out.multi.injEq, V2Out.single.injEq] at *) <;>
       omega)

end UNetSpec

namespace UNetSpec

/-- Helper for the frame property: mapping the parameter projection over a
network state transition is the identity whenever the state list matches the
layer list in length. -/
theorem netStateStep_map_fst {P B : Type} (upd : B → B) (mode : Mode) :
    ∀ (ls : List Layer) (sts : List (P × B)), sts.length = ls.length →
      (netStateStep upd mode ls sts).map Prod.fst = sts.map Prod.fst := by
  intro ls
  induction ls with
  | nil =>
    intro sts h
    cases sts with
    | nil => rfl
    | cons a as => simp at h
  | cons l ls ih =>
    intro sts h
    cases sts with
    | nil => rfl
    | cons a as =>
      simp only [netStateStep, List.zipWith, List.map, layerStateStep]
      exact congrArg (List.cons a.1) (ih as (by simpa using h))

set_option maxHeartbeats 6400000 in
/-- Same closed form for the ladder formulation of the V1 forward pass. -/
theorem unetForwardLadder_eq (nc ic : Nat) (bn : Bool) (s : Shape) :
    unetForwardLadder nc ic bn s =
      if s.c = ic ∧ 16 ≤ s.h ∧ 16 ≤ s.w ∧
          2 * (s.h / 8) = s.h / 4 ∧ 2 * (s.w / 8) = s.w / 4 ∧
          2 * (s.h / 4) = s.h / 2 ∧ 2 * (s.w / 4) = s.w / 2 ∧
          2 * (s.h / 2) = s.h ∧ 2 * (s.w / 2) = s.w then
        some ⟨s.n, nc, s.h, s.w⟩
      else none := by
  unfold unetForwardLadder ladderStep
  simp only [UNet_mk, encoderBlockV1_forward_nopool, encoderBlockV1_forward_pool,
    decoderBlockV1_run, dec1V1_run, conv1x1_sem, Layer.shapeSem, interpolate,
    cat2, Bool.false_eq_true, if_true, if_false, ite_true, ite_false,
    Option.some_bind, Option.none_bind, ite_none_bind]
  repeat' (split_ifs <;> try dsimp only [])
  all_goals (try simp only [not_true, false_implies, true_implies, and_true,
    true_and, Option.some.injEq, Shape.mk.injEq] at *)
  all_goals try rfl
  all_goals omega

/-- Claim C1 counterexample: at the smallest positive multiple of 16 the V2
multi-scale forward pass fails (the bottleneck reaches a 1x1 feature map that
a reflect-padded 3x3 convolution rejects), so not every (H, W) that is a
multiple of 16 yields a successful forward pass. -/
theorem c1_counterexample :
    unetV2Forward 1 1 false 2 true ⟨1, 1, 16, 16⟩ = none := by decide

/-- Claim C1 amended: for spatial sizes that are multiples of 16 and at least
32, a V2 forward pass (evaluation-mode shape semantics) succeeds and returns
four tensors of spatial sizes (H/8, W/8), (H/4, W/4), (H/2, W/2), (H, W) in
multi-scale mode, and a single (H, W) tensor with multi-scale disabled; the V1
forward pass succeeds on every positive multiple of 16 and returns a single
(H, W) tensor. -/
theorem c1_amended (nc ic f : Nat) (bn : Bool) (a b a1 b1 : Nat)
    (ha : 2 ≤ a) (hb : 2 ≤ b) (ha1 : 1 ≤ a1) (hb1 : 1 ≤ b1) :
    unetV2Forward nc ic bn f true ⟨1, ic, 16 * a, 16 * b⟩ =
      some (V2Out.multi ⟨1, nc, 2 * a, 2 * b⟩ ⟨1, nc, 4 * a, 4 * b⟩
        ⟨1, nc, 8 * a, 8 * b⟩ ⟨1, nc, 16 * a, 16 * b⟩) ∧
    unetV2Forward nc ic bn f false ⟨1, ic, 16 * a, 16 * b⟩ =
      some (V2Out.single ⟨1, nc, 16 * a, 16 * b⟩) ∧
    unetForward nc ic bn ⟨1, ic, 16 * a1, 16 * b1⟩ =
      some ⟨1, nc, 16 * a1, 16 * b1⟩ := by
  refine ⟨?_, ?_, ?_⟩ <;>
      simp only [unetV2Forward_eq, unetForward_eq, ite_true, ite_false] <;>
    split_ifs <;>
      (try simp only [Option.some.injEq, Shape.mk.injEq, V2Out.multi.injEq,
        V2Out.single.injEq, true_and, and_true] at *) <;>
    first
      | rfl
      | omega

/-- Witness for the amended claim C1 at the concrete configuration
`UNetV2(1, 1)` on a (1, 1, 32, 32) input and `UNet(1, 1)` on (1, 1, 16, 16). -/
theorem c1_amended_witness :
    unetV2Forward 1 1 false 2 true ⟨1, 1, 32, 32⟩ =
      some (V2Out.multi ⟨1, 1, 4, 4⟩ ⟨1, 1, 8, 8⟩ ⟨1, 1, 16, 16⟩
        ⟨1, 1, 32, 32⟩) ∧
    unetV2Forward 1 1 false 2 false ⟨1, 1, 32, 32⟩ =
      some (V2Out.single ⟨1, 1, 32, 32⟩) ∧
    unetForward 1 1 false ⟨1, 1, 16, 16⟩ = some ⟨1, 1, 16, 16⟩ :=
  c1_amended 1 1 2 false 2 2 1 1 (by decide) (by decide) (by decide) (by decide)

/-- Claim C2: whenever a V2 forward pass succeeds, the result is the 4-tuple
`(conv_8(dec4), conv_4(dec3), conv_2(dec2), final)` exactly when the network
was built with `multi_scale`, and with `multi_scale` disabled it is the single
tensor `final` of shape (batch, num_classes, H, W). -/
theorem c2_output_arity (nc ic f : Nat) (bn ms : Bool) (s : Shape)
    (out : V2Out) (h : unetV2Forward nc ic bn f ms s = some out) :
    ((∃ o8 o4 o2 fin, out = V2Out.multi o8 o4 o2 fin) ↔ ms = true) ∧
    (ms = false → out = V2Out.single ⟨s.n, nc, s.h, s.w⟩) := by
  rw [unetV2Forward_eq] at h
  split_ifs at h with hC hms
  · injection h with h
    subst h
    refine ⟨⟨fun _ => hms, fun _ => ⟨_, _, _, _, rfl⟩⟩, ?_⟩
    intro h'
    rw [hms] at h'
    cases h'
  · injection h with h
    subst h
    refine ⟨⟨?_, ?_⟩, fun _ => rfl⟩
    · rintro ⟨o8, o4, o2, fin, hEq⟩
      cases hEq
    · intro h'
      exact absurd h' hms

/-- Witness for claim C2 at `UNetV2(1, 1, multi_scale=False)` on a
(1, 1, 32, 32) input. -/
theorem c2_output_arity_witness :
    ((∃ o8 o4 o2 fin,
        V2Out.single ⟨1, 1, 32, 32⟩ = V2Out.multi o8 o4 o2 fin) ↔
      (false = true)) ∧
    (false = false →
      V2Out.single ⟨1, 1, 32, 32⟩ = V2Out.single ⟨1, 1, 32, 32⟩) :=
  c2_output_arity 1 1 2 false false ⟨1, 1, 32, 32⟩
    (V2Out.single ⟨1, 1, 32, 32⟩) (by decide)

/-- Claim C3 counterexample: on a (1, 3, 100, 100) input the V1 forward pass
fails, while the forward pass the claim describes (resampling before every one
of the four concatenations) succeeds; hence the V1 ladder does not resample at
every step. -/
theorem c3_counterexample :
    unetForward 1 3 false ⟨1, 3, 100, 100⟩ = none ∧
    unetForwardResampleEach 1 3 false ⟨1, 3, 100, 100⟩ =
      some ⟨1, 1, 100, 100⟩ := by
  constructor <;> decide

/-- Claim C3 amended: in V1 only the first ladder step (bottleneck to dec4)
resamples, with bilinear aligned-corner interpolation, before concatenating
with enc4; the dec3, dec2 and dec1 steps concatenate the previous decoder
output with enc3, enc2, enc1 directly, relying on the decoder blocks' exact
two-fold transposed-convolution upsampling. -/
theorem c3_amended (nc ic : Nat) (bn : Bool) (x : Shape) :
    unetForward nc ic bn x = unetForwardLadder nc ic bn x := by
  rw [unetForward_eq, unetForwardLadder_eq]

/-- Claim C4 counterexample: in the constructed `UNetV2(1, 1)`, the leading
pool of the second encoder stage is max-pooling, not average-pooling. -/
theorem c4_counterexample :
    (UNetV2_mk 1 1 false 2 true).enc2.pool = some Layer.maxPool2 ∧
    (UNetV2_mk 1 1 false 2 true).enc2.pool ≠ some Layer.avgPool2 := by
  constructor <;> decide

/-- Claim C4 amended: in every UNetV2, the leading pools of enc2, enc3 and
enc4 are 2x2 max-pooling (enc1 has none); only the single downsampling between
enc4 and the bottleneck, `self.polling`, is average-pooling. -/
theorem c4_amended (nc ic f : Nat) (bn ms : Bool) :
    (UNetV2_mk nc ic bn f ms).enc1.pool = none ∧
    (UNetV2_mk nc ic bn f ms).enc2.pool = some Layer.maxPool2 ∧
    (UNetV2_mk nc ic bn f ms).enc3.pool = some Layer.maxPool2 ∧
    (UNetV2_mk nc ic bn f ms).enc4.pool = some Layer.maxPool2 ∧
    (UNetV2_mk nc ic bn f ms).polling = Layer.avgPool2 :=
  ⟨rfl, rfl, rfl, rfl, rfl⟩

/-- Claim C5: `UNetV2(in_channels=1, num_classes=1)` (defaults bn=False,
factors=2, multi_scale=True) applied to a (1, 1, 200, 200) input succeeds and
returns four one-channel batch-1 tensors of spatial sizes (25, 25), (50, 50),
(100, 100) and (200, 200). -/
theorem c5_concrete_200 :
    unetV2Forward 1 1 false 2 true ⟨1, 1, 200, 200⟩ =
      some (V2Out.multi ⟨1, 1, 25, 25⟩ ⟨1, 1, 50, 50⟩ ⟨1, 1, 100, 100⟩
        ⟨1, 1, 200, 200⟩) := by decide

/-- Claim C6: on any input where a forward pass succeeds, every returned
tensor has channel count `num_classes` and the input's batch size, and the
returned value is unchanged by the choice of `factors` and by toggling `bn`
(which only selects the normalization flavour). -/
theorem c6_output_channels_batch (nc ic f f2 : Nat) (bn bn2 ms : Bool)
    (s s2 : Shape) (o o2 : V2Out) (t t2 : Shape)
    (hv2 : unetV2Forward nc ic bn f ms s = some o)
    (hv2b : unetV2Forward nc ic bn2 f2 ms s = some o2)
    (hv1 : unetForward nc ic bn s2 = some t)
    (hv1b : unetForward nc ic bn2 s2 = some t2) :
    (∀ u ∈ o.tensors, u.n = s.n ∧ u.c = nc) ∧ o = o2 ∧
    t.n = s2.n ∧ t.c = nc ∧ t = t2 := by
  rw [unetV2Forward_eq] at hv2 hv2b
  rw [unetForward_eq] at hv1 hv1b
  split_ifs at hv2 hv2b hv1 hv1b
  all_goals
    (injection hv2 with hv2
     injection hv2b with hv2b
     injection hv1 with hv1
     injection hv1b with hv1b
     subst hv2 hv2b hv1 hv1b
     refine ⟨?_, rfl, rfl, rfl, rfl⟩
     simp [V2Out.tensors])

/-- Witness for claim C6: the coarsest head of `UNetV2(1, 1)` on a
(1, 1, 32, 32) input keeps batch size 1 and has `num_classes = 1` channels,
using runs at `factors` 2 and 3 and both normalization flavours. -/
theorem c6_output_channels_batch_witness :
    (⟨1, 1, 4, 4⟩ : Shape).n = (⟨1, 1, 32, 32⟩ : Shape).n ∧
    (⟨1, 1, 4, 4⟩ : Shape).c = 1 :=
  (c6_output_channels_batch 1 1 2 3 false true true ⟨1, 1, 32, 32⟩
      ⟨1, 1, 16, 16⟩
      (V2Out.multi ⟨1, 1, 4, 4⟩ ⟨1, 1, 8, 8⟩ ⟨1, 1, 16, 16⟩ ⟨1, 1, 32, 32⟩)
      (V2Out.multi ⟨1, 1, 4, 4⟩ ⟨1, 1, 8, 8⟩ ⟨1, 1, 16, 16⟩ ⟨1, 1, 32, 32⟩)
      ⟨1, 1, 16, 16⟩ ⟨1, 1, 16, 16⟩
      (by decide) (by decide) (by decide) (by decide)).1
    ⟨1, 1, 4, 4⟩ (by decide)

end UNetSpec

namespace UNetSpec

/-- Claim C7 counterexample: the claim's own example input, a
(1, 3, 200, 200) tensor, does not make V1 fail: 200/8 equals 25 exactly, so
every transposed-convolution doubling lands on the matching skip size and the
forward pass returns a (1, 1, 200, 200) tensor. -/
theorem c7_counterexample :
    unetForward 1 3 false ⟨1, 3, 200, 200⟩ = some ⟨1, 1, 200, 200⟩ := by
  decide

/-- Claim C7 amended: spatial sizes that are not multiples of 16 and break
V1's un-resampled concatenations do exist — on a (1, 3, 100, 100) input the
ladder reaches dec4 of spatial size 24x24 while enc3 is 25x25, the
concatenation `torch.cat([dec4, enc3], 1)` fails on that mismatch, and the
whole forward pass fails. -/
theorem c7_amended :
    unetV1Dec4Enc3 1 3 false ⟨1, 3, 100, 100⟩ =
      some (⟨1, 256, 24, 24⟩, ⟨1, 256, 25, 25⟩) ∧
    cat2 ⟨1, 256, 24, 24⟩ ⟨1, 256, 25, 25⟩ = none ∧
    unetForward 1 3 false ⟨1, 3, 100, 100⟩ = none ∧
    ¬ (16 ∣ 100) := by
  refine ⟨by decide, by decide, by decide, by decide⟩

/-- Claim C8: with `bn = False`, every group normalization created in either
network has 32 groups and a channel count divisible by 32 — V1 uses widths
64, 128, 256, 512, 1024 and V2 widths 32, 64, 128, 256, 512 times `factors` —
so for every positive `factors` the divisibility precondition of GroupNorm
holds and construction cannot fail on that account. -/
theorem c8_groupnorm_divisibility (nc ic f : Nat) (ms : Bool) (hf : 1 ≤ f) :
    (∀ g c, Layer.groupNorm g c ∈ (UNet_mk nc ic false).allLayers →
      g = 32 ∧ 32 ∣ c ∧
        (c = 64 ∨ c = 128 ∨ c = 256 ∨ c = 512 ∨ c = 1024)) ∧
    (∀ g c, Layer.groupNorm g c ∈ (UNetV2_mk nc ic false f ms).allLayers →
      g = 32 ∧ 32 ∣ c ∧
        (c = 32 * f ∨ c = 64 * f ∨ c = 128 * f ∨ c = 256 * f ∨
          c = 512 * f)) := by
  constructor <;> intro g c hl <;> cases ms <;>
      simp only [UNet_mk, UNetV2_mk, UNetStruct.allLayers,
        UNetV2Struct.allLayers, EncoderBlock.allLayers, encoderBlockV1,
        encoderBlockV2, decoderBlockV1, decoderBlockV2, norm2d,
        Bool.false_eq_true, Bool.true_eq_false, if_true, if_false, ite_true,
        ite_false, Option.toList_some, Option.toList_none, List.append_nil,
        List.nil_append, List.mem_append, List.mem_cons,
        List.mem_singleton, List.not_mem_nil, Layer.groupNorm.injEq,
        or_false, false_or, reduceCtorEq] at hl <;>
    omega

/-- Witness for claim C8 at `factors = 2`: the group normalization of width 64
found in V1 satisfies the divisibility facts. -/
theorem c8_groupnorm_divisibility_witness :
    1 ≤ 2 ∧ (32 = 32 ∧ 32 ∣ 64 ∧
      (64 = 64 ∨ 64 = 128 ∨ 64 = 256 ∨ 64 = 512 ∨ 64 = 1024)) :=
  ⟨by decide,
    (c8_groupnorm_divisibility 1 1 2 true (by decide)).1 32 64 (by decide)⟩

/-- Claim C9: the forward computation is a deterministic function of the
network and the input — the constructed networks contain no dropout layer
(the only randomized layer kind in this file), and two successful forward
passes on the same input return the same result. -/
theorem c9_deterministic (nc ic f : Nat) (bn ms : Bool) :
    (Layer.dropout ∉ (UNet_mk nc ic bn).allLayers ∧
     Layer.dropout ∉ (UNetV2_mk nc ic bn f ms).allLayers) ∧
    (∀ x o o2, unetForward nc ic bn x = some o →
      unetForward nc ic bn x = some o2 → o = o2) ∧
    (∀ x o o2, unetV2Forward nc ic bn f ms x = some o →
      unetV2Forward nc ic bn f ms x = some o2 → o = o2) := by
  refine ⟨⟨?_, ?_⟩, ?_, ?_⟩
  · cases bn <;>
      simp [UNet_mk, UNetStruct.allLayers, EncoderBlock.allLayers,
        encoderBlockV1, decoderBlockV1, norm2d]
  · cases bn <;> cases ms <;>
      simp [UNetV2_mk, UNetV2Struct.allLayers, EncoderBlock.allLayers,
        encoderBlockV2, decoderBlockV2, norm2d]
  · intro x o o2 h h2
    rw [h] at h2
    exact Option.some.inj h2
  · intro x o o2 h h2
    rw [h] at h2
    exact Option.some.inj h2

/-- Witness for claim C9: two forward evaluations of `UNet(1, 3)` on the same
(1, 3, 200, 200) input give the same output shape. -/
theorem c9_deterministic_witness :
    unetForward 1 3 false ⟨1, 3, 200, 200⟩ = some ⟨1, 1, 200, 200⟩ ∧
    (⟨1, 1, 200, 200⟩ : Shape) = ⟨1, 1, 200, 200⟩ :=
  ⟨by decide,
    (c9_deterministic 1 3 2 false true).2.1 ⟨1, 3, 200, 200⟩
      ⟨1, 1, 200, 200⟩ ⟨1, 1, 200, 200⟩ (by decide) (by decide)⟩

/-- Claim C10: a forward pass never writes a learnable parameter — in the
layer-state model, where a training-mode batch normalization may rewrite its
running-statistics buffers and no other layer touches its state, the
parameter component of every layer state of both networks is unchanged. -/
theorem c10_params_frame {P B : Type} (upd : B → B) (mode : Mode)
    (nc ic f : Nat) (bn ms : Bool) (st1 st2 : List (P × B))
    (h1 : st1.length = (UNet_mk nc ic bn).allLayers.length)
    (h2 : st2.length = (UNetV2_mk nc ic bn f ms).allLayers.length) :
    (netStateStep upd mode (UNet_mk nc ic bn).allLayers st1).map Prod.fst =
      st1.map Prod.fst ∧
    (netStateStep upd mode (UNetV2_mk nc ic bn f ms).allLayers st2).map
        Prod.fst =
      st2.map Prod.fst :=
  ⟨netStateStep_map_fst upd mode _ st1 h1,
   netStateStep_map_fst upd mode _ st2 h2⟩

/-- Witness for claim C10 on concrete parameter/buffer states (one `(0, 0)`
pair per layer of each network). -/
theorem c10_params_frame_witness :
    (netStateStep Nat.succ Mode.train (UNet_mk 1 1 false).allLayers
        (List.replicate (UNet_mk 1 1 false).allLayers.length
          ((0, 0) : Nat × Nat))).map Prod.fst =
      (List.replicate (UNet_mk 1 1 false).allLayers.length
        ((0, 0) : Nat × Nat)).map Prod.fst ∧
    (netStateStep Nat.succ Mode.train (UNetV2_mk 1 1 false 2 true).allLayers
        (List.replicate (UNetV2_mk 1 1 false 2 true).allLayers.length
          ((0, 0) : Nat × Nat))).map Prod.fst =
      (List.replicate (UNetV2_mk 1 1 false 2 true).allLayers.length
        ((0, 0) : Nat × Nat)).map Prod.fst :=
  c10_params_frame Nat.succ Mode.train 1 1 2 false true _ _
    (by simp) (by simp)

end UNetSpec
